import Mathlib

/-!
Verification of the AMEN defensive agent core: a shallow embedding of the
policy engine (`agent/decider.py`), the reasoner gate and LLM-response
parsing (`agent/reasoner.py`), the on-chain actor's revert handling
(`agent/actor.py`) and the tick body's proactive shortcut
(`agent/main.py`), together with theorems settling the spec claims.

Python floats are modelled as rationals (`ℚ`); Python dictionaries that
the code reads through fixed keys are modelled as structures with the
same field names; fallible operations return `Except`.
-/

namespace AMEN

/-! ## Data model (reasoner.py, decider.py) -/

/-- Threat classification enum from `reasoner.py` (`ThreatClassification`). -/
inductive ThreatClassification where
  | NATURAL
  | ORACLE_MANIPULATION
  | FLASH_LOAN_ATTACK
deriving DecidableEq, Repr

/-- Structured threat assessment from `reasoner.py` (`ThreatAssessment`). -/
structure ThreatAssessment where
  classification : ThreatClassification
  confidence : ℚ
  explanation : String
  evidence : List String
  raw_response : Option String := none
deriving DecidableEq, Repr

/-- Action enum from `decider.py` (`ActionType`). -/
inductive ActionType where
  | NONE
  | MONITOR
  | BLOCK_LIQUIDATIONS
  | PAUSE_PROTOCOL
  | FLAG_ORACLE
deriving DecidableEq, Repr

/-- Decision output of the policy engine (`decider.py`, `PolicyDecision`). -/
structure PolicyDecision where
  action : ActionType
  reason : String
  execute_on_chain : Bool
  confidence : ℚ
  threat_classification : ThreatClassification
  evidence : List String
deriving DecidableEq, Repr

/-- The configuration fields of `config.py` (`AgentConfig`) that the verified
components read, with their declared defaults recorded in `defaultConfig`. -/
structure AgentConfig where
  pause_confidence_threshold : ℚ
  block_liquidation_threshold : ℚ
  proactive_pause_deviation : ℚ
  price_deviation_threshold : ℚ
deriving DecidableEq, Repr

/-- The defaults declared in `config.py`: pause 0.65, block 0.50,
proactive deviation 0.30, price-deviation 0.03. -/
def defaultConfig : AgentConfig :=
  { pause_confidence_threshold := 0.65
    block_liquidation_threshold := 0.50
    proactive_pause_deviation := 0.30
    price_deviation_threshold := 0.03 }

/-! ## Policy engine (decider.py) -/

/-- `PolicyEngine.__init__` fixes `self.monitor_threshold = 0.50`. -/
def PolicyEngine.monitor_threshold : ℚ := 0.50

/-- Rendering of Python's `f"{x:.0%}"` used in the decision reason strings;
ties at half a percent round differently in Python (round-half-even on the
binary float) but no verified claim reads these strings. -/
def fmtPct (q : ℚ) : String :=
  toString (⌊q * 100 + 1 / 2⌋ : ℤ) ++ "%"

/-- `PolicyEngine.decide` from `decider.py`: the five hard-coded rules in
source order (first match wins) followed by the default `NONE` decision. -/
def PolicyEngine.decide (cfg : AgentConfig) (assessment : ThreatAssessment) : PolicyDecision :=
  if assessment.classification = ThreatClassification.FLASH_LOAN_ATTACK ∧
     cfg.pause_confidence_threshold ≤ assessment.confidence then
    { action := ActionType.PAUSE_PROTOCOL
      reason := "Flash loan attack detected with " ++ fmtPct assessment.confidence ++
        " confidence. Threshold: " ++ fmtPct cfg.pause_confidence_threshold ++
        ". Pausing protocol to prevent exploitation."
      execute_on_chain := true
      confidence := assessment.confidence
      threat_classification := assessment.classification
      evidence := assessment.evidence }
  else if assessment.classification = ThreatClassification.ORACLE_MANIPULATION ∧
     cfg.block_liquidation_threshold ≤ assessment.confidence then
    { action := ActionType.BLOCK_LIQUIDATIONS
      reason := "Oracle manipulation detected with " ++ fmtPct assessment.confidence ++
        " confidence. Threshold: " ++ fmtPct cfg.block_liquidation_threshold ++
        ". Blocking liquidations to protect users."
      execute_on_chain := true
      confidence := assessment.confidence
      threat_classification := assessment.classification
      evidence := assessment.evidence }
  else if assessment.classification = ThreatClassification.FLASH_LOAN_ATTACK ∧
     cfg.block_liquidation_threshold ≤ assessment.confidence then
    { action := ActionType.BLOCK_LIQUIDATIONS
      reason := "Potential flash loan attack with " ++ fmtPct assessment.confidence ++
        " confidence. Below pause threshold but blocking liquidations as precaution."
      execute_on_chain := true
      confidence := assessment.confidence
      threat_classification := assessment.classification
      evidence := assessment.evidence }
  else if assessment.classification ≠ ThreatClassification.NATURAL ∧
     PolicyEngine.monitor_threshold ≤ assessment.confidence then
    { action := ActionType.MONITOR
      reason := "Suspicious activity with " ++ fmtPct assessment.confidence ++
        " confidence. Enhanced monitoring active."
      execute_on_chain := false
      confidence := assessment.confidence
      threat_classification := assessment.classification
      evidence := assessment.evidence }
  else if assessment.classification = ThreatClassification.ORACLE_MANIPULATION then
    { action := ActionType.FLAG_ORACLE
      reason := "Oracle anomaly detected with " ++ fmtPct assessment.confidence ++
        " confidence. Below action threshold. Flagging for review."
      execute_on_chain := false
      confidence := assessment.confidence
      threat_classification := assessment.classification
      evidence := assessment.evidence }
  else
    { action := ActionType.NONE
      reason := "Market activity within normal parameters."
      execute_on_chain := false
      confidence := assessment.confidence
      threat_classification := assessment.classification
      evidence := assessment.evidence }

/-- `PolicyEngine.should_override_decision` from `decider.py`: demote
`PAUSE_PROTOCOL` when the vault is already paused and `BLOCK_LIQUIDATIONS`
when liquidations are already blocked. -/
def PolicyEngine.should_override_decision (decision : PolicyDecision)
    (vault_paused liquidations_blocked : Bool) : PolicyDecision :=
  if decision.action = ActionType.PAUSE_PROTOCOL ∧ vault_paused = true then
    { action := ActionType.MONITOR
      reason := "Protocol already paused. Continuing monitoring."
      execute_on_chain := false
      confidence := decision.confidence
      threat_classification := decision.threat_classification
      evidence := decision.evidence }
  else if decision.action = ActionType.BLOCK_LIQUIDATIONS ∧ liquidations_blocked = true then
    { action := ActionType.MONITOR
      reason := "Liquidations already blocked. Continuing monitoring."
      execute_on_chain := false
      confidence := decision.confidence
      threat_classification := decision.threat_classification
      evidence := decision.evidence }
  else
    decision

/-- Modelled from the spec: the ordered rule table of section 4.4, giving
for each classification and confidence the action and `execute_on_chain`
flag, first match winning.  Row 4 uses the literal 0.50 of the spec. -/
def decideTableSpec (pause_threshold block_threshold : ℚ)
    (classification : ThreatClassification) (conf : ℚ) : ActionType × Bool :=
  if classification = ThreatClassification.FLASH_LOAN_ATTACK ∧ pause_threshold ≤ conf then
    (ActionType.PAUSE_PROTOCOL, true)
  else if classification = ThreatClassification.ORACLE_MANIPULATION ∧ block_threshold ≤ conf then
    (ActionType.BLOCK_LIQUIDATIONS, true)
  else if classification = ThreatClassification.FLASH_LOAN_ATTACK ∧ block_threshold ≤ conf then
    (ActionType.BLOCK_LIQUIDATIONS, true)
  else if classification ≠ ThreatClassification.NATURAL ∧ (0.50 : ℚ) ≤ conf then
    (ActionType.MONITOR, false)
  else if classification = ThreatClassification.ORACLE_MANIPULATION then
    (ActionType.FLAG_ORACLE, false)
  else
    (ActionType.NONE, false)

/-! ## Theorems: policy engine claims -/

/-- C1: for every `ThreatAssessment`, `PolicyEngine.decide` returns exactly
the action and `execute_on_chain` flag given by the spec's ordered rule
table (first match wins), for every pair of configured thresholds; all
comparisons are non-strict, so in particular confidence exactly equal to
the pause threshold fires the pause rule. -/
theorem decide_matches_rule_table (cfg : AgentConfig) (a : ThreatAssessment) :
    ((PolicyEngine.decide cfg a).action, (PolicyEngine.decide cfg a).execute_on_chain) =
      decideTableSpec cfg.pause_confidence_threshold cfg.block_liquidation_threshold
        a.classification a.confidence := by
  unfold PolicyEngine.decide decideTableSpec PolicyEngine.monitor_threshold
  split_ifs <;> rfl

/-- C7: after `should_override_decision`, a decision that still carries
`execute_on_chain = true` never names an action whose "already done" flag
was set: the conjunction of `execute_on_chain`, the action being
`PAUSE_PROTOCOL` (resp. `BLOCK_LIQUIDATIONS`) and the `vault_paused`
(resp. `liquidations_blocked`) argument is always false. -/
theorem override_execute_implies_flag_clear (d : PolicyDecision) (s l : Bool) :
    ((PolicyEngine.should_override_decision d s l).execute_on_chain &&
      decide ((PolicyEngine.should_override_decision d s l).action = ActionType.PAUSE_PROTOCOL) &&
      s) = false ∧
    ((PolicyEngine.should_override_decision d s l).execute_on_chain &&
      decide ((PolicyEngine.should_override_decision d s l).action = ActionType.BLOCK_LIQUIDATIONS) &&
      l) = false := by
  unfold PolicyEngine.should_override_decision
  split_ifs with h1 h2 <;> simp_all [Bool.and_assoc]

/-- C8: `should_override_decision` is idempotent in its decision argument
for fixed state flags. -/
theorem override_idempotent (d : PolicyDecision) (s l : Bool) :
    PolicyEngine.should_override_decision (PolicyEngine.should_override_decision d s l) s l =
      PolicyEngine.should_override_decision d s l := by
  unfold PolicyEngine.should_override_decision
  split_ifs <;> simp_all

/-- C10: the decide-then-override pipeline carries the assessment's
confidence, classification and evidence through unchanged, in every branch
of both functions. -/
theorem pipeline_preserves_assessment_fields (cfg : AgentConfig) (a : ThreatAssessment)
    (s l : Bool) :
    (PolicyEngine.should_override_decision (PolicyEngine.decide cfg a) s l).confidence =
        a.confidence ∧
    (PolicyEngine.should_override_decision (PolicyEngine.decide cfg a) s l).threat_classification =
        a.classification ∧
    (PolicyEngine.should_override_decision (PolicyEngine.decide cfg a) s l).evidence =
        a.evidence := by
  unfold PolicyEngine.should_override_decision PolicyEngine.decide
  split_ifs <;> simp_all

/-! ## Reasoner gate (reasoner.py, quick_check) -/

/-- The `current_state` sub-dictionary of the analysis context
(`observer.py`, `get_analysis_context`), restricted to the keys the
reasoner reads. -/
structure CurrentState where
  block_number : ℕ
  oracle_price_usd : ℚ
  amm_spot_price_usd : ℚ
  price_deviation_pct : ℚ
deriving DecidableEq, Repr

/-- The `activity_metrics` sub-dictionary of the analysis context. -/
structure ActivityMetrics where
  oracle_updates_this_block : ℕ
  amm_swaps_this_block : ℕ
  recent_large_swaps_count : ℕ
  recent_liquidations_count : ℕ
deriving DecidableEq, Repr

/-- The `anomaly_indicators` sub-dictionary of the analysis context. -/
structure AnomalyIndicators where
  price_deviation_above_threshold : Bool
  multiple_oracle_updates_same_block : Bool
  multiple_swaps_same_block : Bool
  same_block_price_recovery_pattern : Bool
  liquidation_after_price_drop : Bool
deriving DecidableEq, Repr

/-- One entry of `recent_price_changes` in the analysis context. -/
structure PriceChange where
  from_block : ℕ
  to_block : ℕ
  change_pct : ℚ
deriving DecidableEq, Repr

/-- One entry of `recent_liquidations`, restricted to the keys
`quick_check` reads (`user`, `block`). -/
structure LiquidationEvent where
  user : String
  block : ℕ
deriving DecidableEq, Repr

/-- The analysis context handed from the observer to the reasoner. -/
structure AnalysisContext where
  current_state : CurrentState
  activity_metrics : ActivityMetrics
  anomaly_indicators : AnomalyIndicators
  recent_price_changes : List PriceChange
  recent_liquidations : List LiquidationEvent
deriving DecidableEq, Repr

/-- State signature entry of the reasoner's `last_prices` ring: the data
of Python's `f"{oracle:.2f}_{amm:.10f}_{liqs}_{swaps}"` string. -/
abbrev StateSig : Type := ℚ × ℚ × ℕ × ℕ

/-- Key of the reasoner's `analyzed_events` cache: the data of the Python
string `f"liq_{user}_{block}"`. -/
abbrev EventKey : Type := String × ℕ

/-- The mutable `Reasoner` fields touched by `quick_check` and `analyze`
(`reasoner.py`, `__init__`). -/
structure ReasonerState where
  last_llm_block : ℕ
  last_llm_call_hash : Option String
  llm_calls_count : ℕ
  blocks_processed : ℕ
  last_prices : List StateSig
  static_state_warnings : ℕ
  analyzed_events : List EventKey
deriving DecidableEq, Repr

/-- Fresh reasoner state as constructed by `Reasoner.__init__`. -/
def initialReasonerState : ReasonerState :=
  { last_llm_block := 0
    last_llm_call_hash := none
    llm_calls_count := 0
    blocks_processed := 0
    last_prices := []
    static_state_warnings := 0
    analyzed_events := [] }

/-- Decimal rounding used by the state-signature string formatting
(`f"{x:.2f}"`, `f"{x:.10f}"`).  Ties round up here; Python rounds ties of
the underlying binary float to even, but no verified claim evaluates the
signature at a tie. -/
def roundDp (n : ℕ) (q : ℚ) : ℚ :=
  ((⌊q * 10 ^ n + 1 / 2⌋ : ℤ) : ℚ) / 10 ^ n

/-- The state signature `quick_check` appends to `last_prices`:
oracle price to 2 decimals, AMM price to 10 decimals, recent-liquidations
count, swaps-this-block count. -/
def stateSig (ctx : AnalysisContext) : StateSig :=
  (roundDp 2 ctx.current_state.oracle_price_usd,
   roundDp 10 ctx.current_state.amm_spot_price_usd,
   ctx.activity_metrics.recent_liquidations_count,
   ctx.activity_metrics.amm_swaps_this_block)

/-- The `has_recent_activity` test of `quick_check`. -/
def hasRecentActivity (a : ActivityMetrics) : Prop :=
  a.recent_liquidations_count > 0 ∨ a.recent_large_swaps_count > 0 ∨
  a.amm_swaps_this_block > 0 ∨ a.oracle_updates_this_block > 0

instance (a : ActivityMetrics) : Decidable (hasRecentActivity a) := by
  unfold hasRecentActivity
  infer_instance

/-- The per-liquidation deduplication loop of `quick_check`: returns
`.error events` when an already-analyzed key is met (the gate then returns
false with the cache as mutated so far), `.ok events` when the loop
completes.  The cache is cleared once it exceeds 1000 entries. -/
def processLiquidations : List LiquidationEvent → List EventKey →
    Except (List EventKey) (List EventKey)
  | [], events => Except.ok events
  | liq :: rest, events =>
      let key : EventKey := (liq.user, liq.block)
      if key ∈ events then Except.error events
      else
        let events1 := events ++ [key]
        let events2 := if events1.length > 1000 then [] else events1
        processLiquidations rest events2

/-- The tail of `Reasoner.quick_check` after the early exits: the
per-liquidation deduplication loop followed by the six anomaly checks, on
the state whose ring and counter were already updated. -/
def quickCheckPost (st2 : ReasonerState) (ctx : AnalysisContext) : Bool × ReasonerState :=
  match processLiquidations ctx.recent_liquidations st2.analyzed_events with
  | Except.error events => (false, { st2 with analyzed_events := events })
  | Except.ok events =>
    let st3 := { st2 with analyzed_events := events }
    if ctx.current_state.price_deviation_pct > 50 then (true, st3)
    else if ctx.anomaly_indicators.multiple_oracle_updates_same_block = true ∧
        ctx.activity_metrics.oracle_updates_this_block > 1 then (true, st3)
    else if ctx.activity_metrics.amm_swaps_this_block > 3 ∧
        ctx.activity_metrics.recent_large_swaps_count > 0 then (true, st3)
    else if ctx.anomaly_indicators.same_block_price_recovery_pattern = true then (true, st3)
    else if ctx.anomaly_indicators.liquidation_after_price_drop = true ∧
        ctx.activity_metrics.recent_liquidations_count > 0 then (true, st3)
    else if ctx.recent_price_changes.any (fun c => decide (10 < |c.change_pct|)) then
      (true, st3)
    else (false, st3)

/-- The branch structure of `Reasoner.quick_check` after the `last_prices`
ring and `blocks_processed` counter updates: static-state suppression,
the no-activity early exits, then `quickCheckPost`. -/
def quickCheckBody (st2 : ReasonerState) (ctx : AnalysisContext) : Bool × ReasonerState :=
  if st2.last_prices.length ≥ 5 ∧ st2.last_prices.dedup.length ≤ 2 then
    (false, { st2 with static_state_warnings := st2.static_state_warnings + 1 })
  else if ¬ hasRecentActivity ctx.activity_metrics ∧
      ctx.current_state.price_deviation_pct < 5 then
    (false, st2)
  else if ¬ hasRecentActivity ctx.activity_metrics ∧
      30 ≤ ctx.current_state.price_deviation_pct then
    (true, st2)
  else quickCheckPost st2 ctx

/-- `Reasoner.quick_check` from `reasoner.py`: deterministic anomaly gate.
Returns the boolean verdict and the updated reasoner state. -/
def quickCheck (st0 : ReasonerState) (ctx : AnalysisContext) : Bool × ReasonerState :=
  let st1 := { st0 with blocks_processed := st0.blocks_processed + 1 }
  let lpAppended := st1.last_prices ++ [stateSig ctx]
  let lp := if lpAppended.length > 10 then lpAppended.tail else lpAppended
  quickCheckBody { st1 with last_prices := lp } ctx

/-- Modelled from the spec: the six gate conditions of section 4.3 under
which `quickCheck` may return true. -/
def gateSpecSix (ctx : AnalysisContext) : Bool :=
  decide (ctx.current_state.price_deviation_pct > 50) ||
  (ctx.anomaly_indicators.multiple_oracle_updates_same_block &&
    decide (ctx.activity_metrics.oracle_updates_this_block > 1)) ||
  (decide (ctx.activity_metrics.amm_swaps_this_block > 3) &&
    decide (ctx.activity_metrics.recent_large_swaps_count > 0)) ||
  ctx.anomaly_indicators.same_block_price_recovery_pattern ||
  (ctx.anomaly_indicators.liquidation_after_price_drop &&
    decide (ctx.activity_metrics.recent_liquidations_count > 0)) ||
  ctx.recent_price_changes.any (fun c => decide (10 < |c.change_pct|))

/-- A quiet context with a 35% price deviation and no activity of any
kind: none of the spec's six gate conditions holds on it, yet the forced
high-deviation branch of `quick_check` fires. -/
def quietHighDeviationCtx : AnalysisContext :=
  { current_state :=
      { block_number := 1
        oracle_price_usd := 100
        amm_spot_price_usd := 65
        price_deviation_pct := 35 }
    activity_metrics :=
      { oracle_updates_this_block := 0
        amm_swaps_this_block := 0
        recent_large_swaps_count := 0
        recent_liquidations_count := 0 }
    anomaly_indicators :=
      { price_deviation_above_threshold := true
        multiple_oracle_updates_same_block := false
        multiple_swaps_same_block := false
        same_block_price_recovery_pattern := false
        liquidation_after_price_drop := false }
    recent_price_changes := []
    recent_liquidations := [] }

/-! ## Theorems: reasoner gate claims -/

/-- C2 counterexample: on a fresh reasoner state and a context with no
activity, no anomaly-indicator flags, empty price-change history and a
price deviation of 35%, none of the six listed gate conditions holds, yet
`quick_check` returns true (via its forced high-deviation branch). -/
theorem quickCheck_true_without_six_conditions :
    (quickCheck initialReasonerState quietHighDeviationCtx).1 = true ∧
    gateSpecSix quietHighDeviationCtx = false := by
  constructor <;> rfl

/-- Helper: the post-early-exit tail can only answer true when one of the
six gate conditions holds. -/
theorem quickCheckPost_true_implies_gate (st : ReasonerState) (ctx : AnalysisContext) :
    (quickCheckPost st ctx).1 = true → gateSpecSix ctx = true := by
  unfold quickCheckPost
  rcases processLiquidations ctx.recent_liquidations st.analyzed_events with events | events
  · intro h
    exact absurd h (by simp)
  · split_ifs with c1 c2 c3 c4 c5 c6 <;> intro h <;>
      simp only [gateSpecSix, Bool.or_eq_true, Bool.and_eq_true, decide_eq_true_eq] <;>
      tauto

/-- Helper: the branch structure after the ring update answers true only
via a gate condition or the forced high-deviation exit. -/
theorem quickCheckBody_true_implies_gate (st : ReasonerState) (ctx : AnalysisContext) :
    (quickCheckBody st ctx).1 = true →
    gateSpecSix ctx = true ∨
      (¬ hasRecentActivity ctx.activity_metrics ∧
        30 ≤ ctx.current_state.price_deviation_pct) := by
  unfold quickCheckBody
  split_ifs with h1 h2 h3
  · intro h
    exact absurd h (by simp)
  · intro h
    exact absurd h (by simp)
  · intro _
    exact Or.inr h3
  · intro h
    exact Or.inl (quickCheckPost_true_implies_gate st ctx h)

/-- C2 (amended): `quick_check` returns true only if one of the six
listed conditions holds, or the context has no recent activity at all and
its price deviation is at least 30%; equivalently, whenever none of these
holds it returns false. -/
theorem quickCheck_true_implies_gate_condition (st : ReasonerState) (ctx : AnalysisContext) :
    (quickCheck st ctx).1 = true →
    gateSpecSix ctx = true ∨
      (¬ hasRecentActivity ctx.activity_metrics ∧
        30 ≤ ctx.current_state.price_deviation_pct) := by
  unfold quickCheck
  exact quickCheckBody_true_implies_gate _ ctx

/-- C2 witness for the amended gate-soundness theorem, at the concrete
quiet high-deviation context. -/
theorem quickCheck_true_implies_gate_condition_witness :
    gateSpecSix quietHighDeviationCtx = true ∨
      (¬ hasRecentActivity quietHighDeviationCtx.activity_metrics ∧
        30 ≤ quietHighDeviationCtx.current_state.price_deviation_pct) :=
  quickCheck_true_implies_gate_condition initialReasonerState quietHighDeviationCtx (by rfl)

/-- A context carrying one fresh liquidation event: processing it makes
`quick_check` grow the `analyzed_events` cache. -/
def liquidationCtx : AnalysisContext :=
  { current_state :=
      { block_number := 7
        oracle_price_usd := 100
        amm_spot_price_usd := 100
        price_deviation_pct := 0 }
    activity_metrics :=
      { oracle_updates_this_block := 0
        amm_swaps_this_block := 0
        recent_large_swaps_count := 0
        recent_liquidations_count := 1 }
    anomaly_indicators :=
      { price_deviation_above_threshold := false
        multiple_oracle_updates_same_block := false
        multiple_swaps_same_block := false
        same_block_price_recovery_pattern := false
        liquidation_after_price_drop := false }
    recent_price_changes := []
    recent_liquidations := [{ user := "0xabc", block := 5 }] }

/-- C9 counterexample: a `quick_check` call on a context carrying a fresh
liquidation event mutates the `analyzed_events` cache, a reasoner field
other than the `last_prices` ring and the `blocks_processed` counter. -/
theorem quickCheck_mutates_analyzed_events :
    (quickCheck initialReasonerState liquidationCtx).2.analyzed_events ≠
      initialReasonerState.analyzed_events := by
  decide

/-- C9 (amended): `quick_check` is a pure function of the reasoner state
and the context (hence deterministic), and its side effects are confined
to `last_prices`, `blocks_processed`, `static_state_warnings` and
`analyzed_events`: the LLM deduplication fields `last_llm_block`,
`last_llm_call_hash` and `llm_calls_count` are unchanged by every call. -/
theorem quickCheck_preserves_llm_fields (st : ReasonerState) (ctx : AnalysisContext) :
    (quickCheck st ctx).2.last_llm_block = st.last_llm_block ∧
    (quickCheck st ctx).2.last_llm_call_hash = st.last_llm_call_hash ∧
    (quickCheck st ctx).2.llm_calls_count = st.llm_calls_count := by
  have hpost : ∀ st2 : ReasonerState,
      (quickCheckPost st2 ctx).2.last_llm_block = st2.last_llm_block ∧
      (quickCheckPost st2 ctx).2.last_llm_call_hash = st2.last_llm_call_hash ∧
      (quickCheckPost st2 ctx).2.llm_calls_count = st2.llm_calls_count := by
    intro st2
    unfold quickCheckPost
    rcases processLiquidations ctx.recent_liquidations st2.analyzed_events with _ | _
    · exact ⟨rfl, rfl, rfl⟩
    · split_ifs <;> exact ⟨rfl, rfl, rfl⟩
  have hbody : ∀ st2 : ReasonerState,
      (quickCheckBody st2 ctx).2.last_llm_block = st2.last_llm_block ∧
      (quickCheckBody st2 ctx).2.last_llm_call_hash = st2.last_llm_call_hash ∧
      (quickCheckBody st2 ctx).2.llm_calls_count = st2.llm_calls_count := by
    intro st2
    unfold quickCheckBody
    split_ifs
    · exact ⟨rfl, rfl, rfl⟩
    · exact ⟨rfl, rfl, rfl⟩
    · exact ⟨rfl, rfl, rfl⟩
    · exact hpost st2
  exact hbody _

/-! ## LLM response parsing (reasoner.py, _parse_response / analyze) -/

/-- JSON values as produced by `json.loads` on the (fence-stripped) LLM
reply text.  `num` carries the finite values; the non-finite literals
(`NaN`, `Infinity`) that `json.loads` also accepts are modelled
separately by `PyFloat` below, where the confidence clamp is analysed
over the full float domain. -/
inductive Json where
  | null
  | bool (b : Bool)
  | num (q : ℚ)
  | str (s : String)
  | arr (elems : List Json)
  | obj (fields : List (String × Json))
deriving Repr

/-- Rendering of Python's `str()` on a parsed JSON value, used when the
parser coerces `explanation` and `evidence` entries to strings.  Nested
strings are rendered without Python's repr quoting; no verified claim
reads these renderings. -/
def pyStr : Json → String
  | Json.null => "None"
  | Json.bool true => "True"
  | Json.bool false => "False"
  | Json.num q => toString q
  | Json.str s => s
  | Json.arr elems =>
      "[" ++ String.intercalate ", " (elems.attach.map fun x => pyStr x.1) ++ "]"
  | Json.obj fields =>
      "\x7b" ++
        String.intercalate ", " (fields.attach.map fun x => x.1.1 ++ ": " ++ pyStr x.1.2) ++
        "\x7d"
termination_by j => sizeOf j
decreasing_by
  · have h := List.sizeOf_lt_of_mem x.2
    simp only [Json.arr.sizeOf_spec]
    omega
  · obtain ⟨⟨k, v⟩, hmem⟩ := x
    have h := List.sizeOf_lt_of_mem hmem
    simp only [Prod.mk.sizeOf_spec] at h
    simp only [Json.obj.sizeOf_spec]
    omega

/-- Contiguous-sublist (substring) test, Python's `needle in hay` on
strings. -/
def listContainsSublist : List Char → List Char → Bool
  | needle, [] => needle.isEmpty
  | needle, c :: rest => needle.isPrefixOf (c :: rest) || listContainsSublist needle rest

/-- Python's `field in data` on a parsed JSON value: key membership for
objects, element membership for arrays, substring test for strings, and a
`TypeError` (modelled as `.error`) on non-iterable values. -/
def jsonContainsField (data : Json) (f : String) : Except String Bool :=
  match data with
  | Json.obj fields => Except.ok (fields.any fun kv => decide (kv.1 = f))
  | Json.arr elems =>
      Except.ok (elems.any fun x =>
        match x with
        | Json.str s => decide (s = f)
        | _ => false)
  | Json.str s => Except.ok (listContainsSublist f.toList s.toList)
  | _ => Except.error "TypeError: argument is not iterable"

/-- Python's `data[field]` on a parsed JSON value: lookup for objects
(keys of a decoded JSON object are distinct), `TypeError` otherwise. -/
def jsonGetField (data : Json) (f : String) : Except String Json :=
  match data with
  | Json.obj fields =>
      match fields.find? (fun kv => decide (kv.1 = f)) with
      | some kv => Except.ok kv.2
      | none => Except.error ("KeyError: " ++ f)
  | _ => Except.error "TypeError: value is not subscriptable by string"

/-- The required-fields loop of `_parse_response`: the first field of the
list missing from the data, or an uncaught `TypeError` from the `in`
test. -/
def firstMissingField : Json → List String → Except String (Option String)
  | _, [] => Except.ok none
  | data, f :: rest =>
      match jsonContainsField data f with
      | Except.error e => Except.error e
      | Except.ok false => Except.ok (some f)
      | Except.ok true => firstMissingField data rest

/-- `ThreatClassification(value)` with the surrounding
`except ValueError` handler of `_parse_response`: unknown hashable values
coerce to `NATURAL`; unhashable values (arrays, objects) raise a
`TypeError` that the handler does not catch. -/
def classificationOf : Json → Except String ThreatClassification
  | Json.str "NATURAL" => Except.ok ThreatClassification.NATURAL
  | Json.str "ORACLE_MANIPULATION" => Except.ok ThreatClassification.ORACLE_MANIPULATION
  | Json.str "FLASH_LOAN_ATTACK" => Except.ok ThreatClassification.FLASH_LOAN_ATTACK
  | Json.str _ => Except.ok ThreatClassification.NATURAL
  | Json.num _ => Except.ok ThreatClassification.NATURAL
  | Json.bool _ => Except.ok ThreatClassification.NATURAL
  | Json.null => Except.ok ThreatClassification.NATURAL
  | Json.arr _ => Except.error "TypeError: unhashable type"
  | Json.obj _ => Except.error "TypeError: unhashable type"

/-- Python's `float()` on a parsed JSON value: numbers pass through,
booleans coerce to 0 or 1, anything else raises.  This ℚ-valued
conversion covers only finite numbers; Python additionally produces
non-finite floats (NaN via a `NaN` literal accepted by `json.loads`, or
via numeric strings such as "nan"), a domain modelled separately by
`PyFloat` and `validateConfidence` below because NaN changes the
behaviour of the confidence clamp. -/
def pyFloat : Json → Except String ℚ
  | Json.num q => Except.ok q
  | Json.bool true => Except.ok 1
  | Json.bool false => Except.ok 0
  | _ => Except.error "ValueError: could not convert value to float"

/-- `Reasoner._parse_response` from `reasoner.py`, on the result of
`json.loads` over the fence-stripped reply text (`.error` when the text is
not valid JSON).  Returns `.error` exactly where the Python body raises an
exception that its own handlers do not catch (to be caught by `analyze`). -/
def Reasoner.parse_response (raw : String) (decoded : Except String Json) :
    Except String ThreatAssessment :=
  match decoded with
  | Except.error e =>
      Except.ok
        { classification := ThreatClassification.NATURAL
          confidence := 0
          explanation := "Failed to parse LLM response"
          evidence := ["Parse error: " ++ e]
          raw_response := some raw }
  | Except.ok data =>
    match firstMissingField data ["classification", "confidence", "explanation", "evidence"] with
    | Except.error e => Except.error e
    | Except.ok (some f) =>
        Except.ok
          { classification := ThreatClassification.NATURAL
            confidence := 0
            explanation := "Missing field: " ++ f
            evidence := []
            raw_response := some raw }
    | Except.ok none =>
      match jsonGetField data "classification" with
      | Except.error e => Except.error e
      | Except.ok cval =>
        match classificationOf cval with
        | Except.error e => Except.error e
        | Except.ok classification =>
          match jsonGetField data "confidence" with
          | Except.error e => Except.error e
          | Except.ok confval =>
            match pyFloat confval with
            | Except.error e => Except.error e
            | Except.ok rawConf =>
              match jsonGetField data "explanation", jsonGetField data "evidence" with
              | Except.error e, _ => Except.error e
              | Except.ok _, Except.error e => Except.error e
              | Except.ok expl, Except.ok ev =>
                  Except.ok
                    { classification := classification
                      confidence :=
                        if rawConf < 0 ∨ rawConf > 1 then max 0 (min 1 rawConf) else rawConf
                      explanation := pyStr expl
                      evidence :=
                        match ev with
                        | Json.arr elems => elems.map pyStr
                        | other => [pyStr other]
                      raw_response := some raw }

/-- The outcome of the Gemini call inside `analyze`: the SDK raised, the
reply text was empty, or a reply text was received (paired with the result
of decoding it as JSON). -/
inductive LlmResult where
  | failure (err : String)
  | empty
  | response (raw : String) (decoded : Except String Json)

/-- `Reasoner.analyze` from `reasoner.py`: block-level and content-hash
deduplication, then the LLM call and response parsing under the
catch-all handler.  `contentHash` stands for the 16-hex-character SHA-256
digest of the canonical context computed by the source. -/
def Reasoner.analyze (st : ReasonerState) (ctx : AnalysisContext) (contentHash : String)
    (llm : LlmResult) : ThreatAssessment × ReasonerState :=
  if ctx.current_state.block_number = st.last_llm_block then
    ({ classification := ThreatClassification.NATURAL
       confidence := 0
       explanation := "Block already analyzed (deduplication)"
       evidence := []
       raw_response := none }, st)
  else if some contentHash = st.last_llm_call_hash then
    ({ classification := ThreatClassification.NATURAL
       confidence := 0
       explanation := "Identical context already analyzed"
       evidence := []
       raw_response := none }, st)
  else
    let st1 := { st with
      llm_calls_count := st.llm_calls_count + 1
      last_llm_block := ctx.current_state.block_number
      last_llm_call_hash := some contentHash }
    match llm with
    | LlmResult.failure err =>
        ({ classification := ThreatClassification.NATURAL
           confidence := 0
           explanation := "Analysis error: " ++ err
           evidence := []
           raw_response := none }, st1)
    | LlmResult.empty =>
        ({ classification := ThreatClassification.NATURAL
           confidence := 0
           explanation := "Empty LLM response"
           evidence := []
           raw_response := none }, st1)
    | LlmResult.response raw decoded =>
        match Reasoner.parse_response raw decoded with
        | Except.ok assessment => (assessment, st1)
        | Except.error e =>
            ({ classification := ThreatClassification.NATURAL
               confidence := 0
               explanation := "Analysis error: " ++ e
               evidence := []
               raw_response := none }, st1)

/-- The value domain of a Python `float` as it reaches the confidence
validation of `_parse_response`: `json.loads` by default also accepts the
literals `NaN`, `Infinity` and `-Infinity`, and `float()` likewise
produces them from the strings "nan"/"inf".  The ℚ-valued `Json.num` of
the pipeline model above covers only the finite values; this type carries
the full domain for analysing the clamp. -/
inductive PyFloat where
  | finite (q : ℚ)
  | nan
  | posInf
  | negInf
deriving DecidableEq, Repr

/-- IEEE-754 `<` on Python floats: every comparison involving NaN is
false. -/
def PyFloat.lt : PyFloat → PyFloat → Bool
  | PyFloat.finite a, PyFloat.finite b => decide (a < b)
  | PyFloat.finite _, PyFloat.posInf => true
  | PyFloat.negInf, PyFloat.finite _ => true
  | PyFloat.negInf, PyFloat.posInf => true
  | _, _ => false

/-- IEEE-754 `≤` on Python floats: every comparison involving NaN is
false. -/
def PyFloat.le : PyFloat → PyFloat → Bool
  | PyFloat.finite a, PyFloat.finite b => decide (a ≤ b)
  | PyFloat.finite _, PyFloat.posInf => true
  | PyFloat.negInf, PyFloat.finite _ => true
  | PyFloat.negInf, PyFloat.posInf => true
  | PyFloat.negInf, PyFloat.negInf => true
  | PyFloat.posInf, PyFloat.posInf => true
  | _, _ => false

/-- Python's builtin `min(a, b)`: returns `b` when `b < a`, else `a`. -/
def PyFloat.min2 (a b : PyFloat) : PyFloat :=
  if PyFloat.lt b a then b else a

/-- Python's builtin `max(a, b)`: returns `b` when `a < b`, else `a`. -/
def PyFloat.max2 (a b : PyFloat) : PyFloat :=
  if PyFloat.lt a b then b else a

/-- Membership of a Python float in the closed interval `[0, 1]` under
IEEE-754 comparisons (false for NaN). -/
def PyFloat.inUnitInterval (c : PyFloat) : Bool :=
  PyFloat.le (PyFloat.finite 0) c && PyFloat.le c (PyFloat.finite 1)

/-- The confidence validation of `_parse_response` (reasoner.py lines
191-194) over the full float domain:
`if confidence < 0 or confidence > 1: confidence = max(0.0, min(1.0, confidence))`. -/
def validateConfidence (confidence : PyFloat) : PyFloat :=
  if PyFloat.lt confidence (PyFloat.finite 0) ||
      PyFloat.lt (PyFloat.finite 1) confidence then
    PyFloat.max2 (PyFloat.finite 0) (PyFloat.min2 (PyFloat.finite 1) confidence)
  else
    confidence

/-! ## Theorems: reasoner parsing claims -/

/-- C6: the confidence clamp of `_parse_response` is bypassed by a NaN
confidence — the guard `confidence < 0 or confidence > 1` is false for
NaN under IEEE-754 comparisons, so NaN is returned unclamped and lies
outside `[0, 1]` — while every finite confidence value is indeed clamped
into `[0, 1]` (and the infinities are clamped to the endpoints), showing
the program's clamp enforces the claimed invariant on every value except
NaN. -/
theorem nan_confidence_bypasses_clamp :
    validateConfidence PyFloat.nan = PyFloat.nan ∧
    PyFloat.inUnitInterval PyFloat.nan = false ∧
    (∀ q : ℚ, validateConfidence (PyFloat.finite q) = PyFloat.finite (max 0 (min 1 q))) ∧
    validateConfidence PyFloat.posInf = PyFloat.finite 1 ∧
    validateConfidence PyFloat.negInf = PyFloat.finite 0 := by
  refine ⟨by decide, by decide, ?_, by decide, by decide⟩
  intro q
  by_cases h0 : q < 0
  · have hq1 : q < 1 := h0.trans (by norm_num)
    have hle : ¬ (0 : ℚ) < q := not_lt.mpr h0.le
    have hmax : max 0 (min 1 q) = 0 := by
      rw [min_eq_right hq1.le]
      exact max_eq_left h0.le
    simp [validateConfidence, PyFloat.min2, PyFloat.max2, PyFloat.lt, h0, hq1, hle, hmax]
  · by_cases h1 : 1 < q
    · have hq1 : ¬ q < 1 := not_lt.mpr h1.le
      have hmax : max 0 (min 1 q) = 1 := by
        rw [min_eq_left h1.le]
        exact max_eq_right (by norm_num)
      simp [validateConfidence, PyFloat.min2, PyFloat.max2, PyFloat.lt, h0, h1, hq1, hmax]
    · have hmax : max 0 (min 1 q) = q := by
        rw [min_eq_right (not_lt.mp h1)]
        exact max_eq_right (not_lt.mp h0)
      simp [validateConfidence, PyFloat.lt, h0, h1, hmax]

/-- C5: when the LLM reply is not valid JSON, `analyze` (reaching the
parser, i.e. outside the deduplication branches) returns — without
raising — the safe assessment `NATURAL` / confidence 0 with explanation
"Failed to parse LLM response" and a single "Parse error: …" evidence
entry, and `decide` maps that assessment to action `NONE` with
`execute_on_chain = false`, so no transaction is submitted. -/
theorem malformed_llm_response_safe (cfg : AgentConfig) (st : ReasonerState)
    (ctx : AnalysisContext) (contentHash raw err : String)
    (hblock : ctx.current_state.block_number ≠ st.last_llm_block)
    (hhash : some contentHash ≠ st.last_llm_call_hash) :
    (Reasoner.analyze st ctx contentHash (LlmResult.response raw (Except.error err))).1 =
      { classification := ThreatClassification.NATURAL
        confidence := 0
        explanation := "Failed to parse LLM response"
        evidence := ["Parse error: " ++ err]
        raw_response := some raw } ∧
    (PolicyEngine.decide cfg
      (Reasoner.analyze st ctx contentHash (LlmResult.response raw (Except.error err))).1).action =
      ActionType.NONE ∧
    (PolicyEngine.decide cfg
      (Reasoner.analyze st ctx contentHash
        (LlmResult.response raw (Except.error err))).1).execute_on_chain = false := by
  have hres :
      (Reasoner.analyze st ctx contentHash (LlmResult.response raw (Except.error err))).1 =
        { classification := ThreatClassification.NATURAL
          confidence := 0
          explanation := "Failed to parse LLM response"
          evidence := ["Parse error: " ++ err]
          raw_response := some raw } := by
    unfold Reasoner.analyze
    rw [if_neg hblock, if_neg hhash]
    rfl
  refine ⟨hres, ?_, ?_⟩ <;>
    · rw [hres]
      unfold PolicyEngine.decide
      simp

/-- C5 witness: the concrete scenario of the spec's end-to-end seed 5 —
reply text "not json", fresh reasoner state, the quiet context at block 1
— evaluated through the theorem. -/
theorem malformed_llm_response_safe_witness :
    (Reasoner.analyze initialReasonerState quietHighDeviationCtx "a3f2c1d4b5e60718"
        (LlmResult.response "not json"
          (Except.error "Expecting value: line 1 column 1 (char 0)"))).1 =
      { classification := ThreatClassification.NATURAL
        confidence := 0
        explanation := "Failed to parse LLM response"
        evidence := ["Parse error: Expecting value: line 1 column 1 (char 0)"]
        raw_response := some "not json" } ∧
    (PolicyEngine.decide defaultConfig
      (Reasoner.analyze initialReasonerState quietHighDeviationCtx "a3f2c1d4b5e60718"
        (LlmResult.response "not json"
          (Except.error "Expecting value: line 1 column 1 (char 0)"))).1).action =
      ActionType.NONE ∧
    (PolicyEngine.decide defaultConfig
      (Reasoner.analyze initialReasonerState quietHighDeviationCtx "a3f2c1d4b5e60718"
        (LlmResult.response "not json"
          (Except.error "Expecting value: line 1 column 1 (char 0)"))).1).execute_on_chain =
      false :=
  malformed_llm_response_safe defaultConfig initialReasonerState quietHighDeviationCtx
    "a3f2c1d4b5e60718" "not json" "Expecting value: line 1 column 1 (char 0)"
    (by decide) (by decide)

/-! ## On-chain actor (actor.py) -/

/-- Substring containment test, Python's `needle in str(e)`. -/
def containsSubstr (needle hay : String) : Bool :=
  listContainsSublist needle.toList hay.toList

/-- `Actor._pause_protocol` from `actor.py`, over the outcome of the
underlying signed `vault.pause(reason)` submission: `.ok h` is the
obtained transaction hash hex digits, `.error e` the text of the raised
exception (e.g. a revert).  The body has no exception handler, so every
error propagates; on success it returns the `0x`-prefixed hash. -/
def Actor.pause_protocol (outcome : Except String String) : Except String String :=
  match outcome with
  | Except.ok txHash => Except.ok ("0x" ++ txHash)
  | Except.error e => Except.error e

/-- `Actor._block_liquidations` from `actor.py`: no exception handler,
every error propagates. -/
def Actor.block_liquidations (outcome : Except String String) : Except String String :=
  match outcome with
  | Except.ok txHash => Except.ok ("0x" ++ txHash)
  | Except.error e => Except.error e

/-- `Actor._flag_oracle` from `actor.py`: no exception handler, every
error propagates. -/
def Actor.flag_oracle (outcome : Except String String) : Except String String :=
  match outcome with
  | Except.ok txHash => Except.ok ("0x" ++ txHash)
  | Except.error e => Except.error e

/-- `Actor.pause_amm` from `actor.py`: the only operation with an
exception handler — an error whose text contains `"Already paused"` is
coerced to the sentinel success value `"already_paused"`; every other
error is re-raised. -/
def Actor.pause_amm (outcome : Except String String) : Except String String :=
  match outcome with
  | Except.ok txHash => Except.ok ("0x" ++ txHash)
  | Except.error e =>
      if containsSubstr "Already paused" e then Except.ok "already_paused"
      else Except.error e

/-! ## Theorems: actor claims -/

/-- C3 counterexample: a revert whose reason contains "Already paused" is
propagated, not coerced to the `"already_paused"` sentinel, by
`_pause_protocol` (and the claim asserts the coercion for every mutating
operation). -/
theorem pause_protocol_propagates_already_paused :
    containsSubstr "Already paused" "execution reverted: Already paused" = true ∧
    Actor.pause_protocol (Except.error "execution reverted: Already paused") =
      Except.error "execution reverted: Already paused" ∧
    Actor.pause_protocol (Except.error "execution reverted: Already paused") ≠
      Except.ok "already_paused" := by
  refine ⟨by decide, rfl, ?_⟩
  intro h
  exact Except.noConfusion h

/-- C3 (amended): among the Actor's mutating operations only `pause_amm`
treats a revert containing "Already paused" as the sentinel success value
`"already_paused"`; `_pause_protocol`, `_block_liquidations` and
`_flag_oracle` propagate every revert unchanged, and all four return the
`0x`-prefixed transaction hash on success. -/
theorem actor_revert_handling (e txHash : String) :
    Actor.pause_amm (Except.error e) =
      (if containsSubstr "Already paused" e = true then Except.ok "already_paused"
       else Except.error e) ∧
    Actor.pause_protocol (Except.error e) = Except.error e ∧
    Actor.block_liquidations (Except.error e) = Except.error e ∧
    Actor.flag_oracle (Except.error e) = Except.error e ∧
    Actor.pause_amm (Except.ok txHash) = Except.ok ("0x" ++ txHash) ∧
    Actor.pause_protocol (Except.ok txHash) = Except.ok ("0x" ++ txHash) ∧
    Actor.block_liquidations (Except.ok txHash) = Except.ok ("0x" ++ txHash) ∧
    Actor.flag_oracle (Except.ok txHash) = Except.ok ("0x" ++ txHash) := by
  refine ⟨?_, rfl, rfl, rfl, rfl, rfl, rfl, rfl⟩
  unfold Actor.pause_amm
  split_ifs with h <;> simp_all

/-! ## Agent tick body (main.py, run_cycle) -/

/-- The `MarketSnapshot` fields of `observer.py` that the tick body
reads. -/
structure MarketSnapshot where
  block_number : ℕ
  oracle_price : ℚ
  amm_spot_price : ℚ
  price_deviation_pct : ℚ
  amm_paused : Bool
  vault_paused : Bool
  liquidations_blocked : Bool
deriving DecidableEq, Repr

/-- Observable outcome of one `run_cycle` tick: which stages ran and what
the pipeline decided. -/
structure TickOutcome where
  proactive_fired : Bool
  quick_check_called : Bool
  llm_called : Bool
  decision : Option PolicyDecision
  reasonerState : ReasonerState
deriving Repr

/-- The control flow of `AMENAgent.run_cycle` from `main.py` for a given
snapshot and prepared analysis context: the proactive shortcut (strict
`>` against `proactive_pause_deviation * 100`, both pause flags clear)
returns from the tick before `quick_check` or the LLM run; otherwise the
gate runs, the LLM runs only on a positive gate verdict (`llm` stands for
its outcome), and the decide/override pipeline produces the decision.
The actor and reporter calls are external effects and are not modelled. -/
def AMENAgent.run_cycle (cfg : AgentConfig) (st : ReasonerState) (snapshot : MarketSnapshot)
    (ctx : AnalysisContext) (contentHash : String) (llm : LlmResult) : TickOutcome :=
  if snapshot.price_deviation_pct > cfg.proactive_pause_deviation * 100 ∧
      snapshot.amm_paused = false ∧ snapshot.vault_paused = false then
    { proactive_fired := true
      quick_check_called := false
      llm_called := false
      decision := none
      reasonerState := st }
  else
    let gate := quickCheck st ctx
    let assessed :=
      if gate.1 then Reasoner.analyze gate.2 ctx contentHash llm
      else
        ({ classification := ThreatClassification.NATURAL
           confidence := 0.95
           explanation := "No anomalies detected in deterministic checks"
           evidence := []
           raw_response := none }, gate.2)
    let decision :=
      PolicyEngine.should_override_decision (PolicyEngine.decide cfg assessed.1)
        snapshot.vault_paused snapshot.liquidations_blocked
    { proactive_fired := false
      quick_check_called := true
      llm_called := gate.1
      decision := some decision
      reasonerState := assessed.2 }

/-! ## Theorems: agent loop claim -/

/-- C4: the proactive shortcut fires exactly when the snapshot's
deviation strictly exceeds `proactive_pause_deviation × 100` and neither
the AMM nor the vault is paused (so a deviation exactly at the threshold
does not fire it), and whenever it fires the tick returns without calling
`quick_check` or the LLM analyzer. -/
theorem proactive_shortcut_characterisation (cfg : AgentConfig) (st : ReasonerState)
    (snapshot : MarketSnapshot) (ctx : AnalysisContext) (contentHash : String)
    (llm : LlmResult) :
    (AMENAgent.run_cycle cfg st snapshot ctx contentHash llm).proactive_fired =
      decide (snapshot.price_deviation_pct > cfg.proactive_pause_deviation * 100 ∧
        snapshot.amm_paused = false ∧ snapshot.vault_paused = false) ∧
    ((AMENAgent.run_cycle cfg st snapshot ctx contentHash llm).proactive_fired &&
      (AMENAgent.run_cycle cfg st snapshot ctx contentHash llm).quick_check_called) = false ∧
    ((AMENAgent.run_cycle cfg st snapshot ctx contentHash llm).proactive_fired &&
      (AMENAgent.run_cycle cfg st snapshot ctx contentHash llm).llm_called) = false := by
  unfold AMENAgent.run_cycle
  split_ifs with h <;> simp [h]

end AMEN
